import Mathlib

/-!
Shallow embedding of the `pv_heating_manager_sm` Go program.

Conventions of the embedding:
* `time.Time` and `time.Duration` are modelled as `Int` nanoseconds since the
  Unix epoch (Go stores both with nanosecond resolution); `t.After u` is the
  strict comparison `t > u` and `time.Until t` evaluated at instant `now` is
  `t - now`, exactly as in the Go standard library.
* `float64` temperatures are modelled as `ℚ`: the program only ever compares
  temperatures (`temperature > threshold`), never does float arithmetic, and
  every value decoded from a JSON number is an ordinary (non-NaN) real.
* Every HTTP interaction is modelled by an oracle value of type `HttpResult α`
  supplied as an argument: the transport may fail, request construction may
  fail, or a response with a status code and an optionally-decodable body of
  type `α` arrives.  The functions consume these oracles exactly where the Go
  code performs the corresponding call.
* Errors are Go `error` values; only their presence matters to the claims, so
  they are carried as `String` messages mirroring the `fmt.Errorf` texts.
* The filesystem visible to the program is the single checkpoint file,
  modelled as `Option String` (`none` = absent/unreadable).
-/

/-- Go struct `Config` from `config.go` (the superset variant, which carries the heat
pump fields `HeatPumpID` and `HeatPumpControlURL` used by
`heating_control.go`).  Temperatures are `ℚ`, intervals are `Int` as in Go. -/
structure Config where
  SolarManagerURL : String
  SolarManagerSensorID : String
  TemperatureThreshold : ℚ
  TemperatureTurnOff : ℚ
  CheckInterval : Int
  WeeklyCheckInterval : Int
  Username : String
  Password : String
  HeatPumpID : String
  HeatPumpControlURL : String
  deriving Repr, DecidableEq

/-- The `HeatingManager` struct: configuration, the shared
`TemperatureExceeded` flag, the checkpoint file name, and the auth session
(`Token`, `TokenExpiry`).  `TokenExpiry` is an instant in nanoseconds. -/
structure HeatingManager where
  Config : Config
  TemperatureExceeded : Bool
  CheckInterval : Int
  LastCheckFile : String
  Token : String
  TokenExpiry : Int
  deriving Repr, DecidableEq

/-- Outcome oracle for one HTTP call: request construction failed
(`http.NewRequest` error), the transport failed (`client.Do` / `http.Post`
error), or a response arrived with status code `status` and a body that
decodes to `some b : α` or fails to decode (`none`). -/
inductive HttpResult (α : Type) where
  | reqError
  | transportError
  | response (status : Nat) (body : Option α)
  deriving Repr, DecidableEq

/-- Decoded body of a successful login / refresh response:
`{accessToken, expiresIn}` with `expiresIn` in seconds. -/
structure AuthBody where
  accessToken : String
  expiresIn : Int
  deriving Repr, DecidableEq

/-- Which network action `getAuthToken` performed. -/
inductive AuthAction where
  | didLogin
  | didRefresh
  | noop
  deriving Repr, DecidableEq

/-- Environment of one `getAuthToken` call: the current instant and the
oracles for the login and refresh endpoints (used only if the corresponding
call is made). -/
structure AuthEnv where
  now : Int
  loginResp : HttpResult AuthBody
  refreshResp : HttpResult AuthBody

/-- One nanosecond-count second, as in `time.Second`. -/
def secondNs : Int := 1000000000

/-- Go `time.Hour` in nanoseconds. -/
def hourNs : Int := 3600 * secondNs

/-- Go `t.After(u)`: strict `t > u`. -/
def timeAfter (t u : Int) : Bool := t > u

/-- Go `login` from `auth.go` / `heating_manager.go` lines 236-271: POST the
credentials; on transport error, non-200 status, or decode failure return an
error leaving the session untouched; on success store the token and set
`TokenExpiry = now + expiresIn seconds`. -/
def login (hm : HeatingManager) (env : AuthEnv) :
    HeatingManager × Except String Unit :=
  match env.loginResp with
  | .reqError => (hm, .error "error making auth request")
  | .transportError => (hm, .error "error making auth request")
  | .response status body =>
    if status ≠ 200 then
      (hm, .error "authentication failed")
    else
      match body with
      | none => (hm, .error "error decoding auth response")
      | some b =>
        ({ hm with Token := b.accessToken,
                   TokenExpiry := env.now + b.expiresIn * secondNs },
         .ok ())

/-- Go `refreshToken` from `auth.go` / `heating_manager.go` lines 274-306: POST
with the current bearer token; on request-creation error, transport error,
non-200 status, or decode failure return an error leaving the session
untouched; on success store the new token and expiry. -/
def refreshToken (hm : HeatingManager) (env : AuthEnv) :
    HeatingManager × Except String Unit :=
  match env.refreshResp with
  | .reqError => (hm, .error "error creating refresh request")
  | .transportError => (hm, .error "error executing refresh request")
  | .response status body =>
    if status ≠ 200 then
      (hm, .error "failed to refresh token")
    else
      match body with
      | none => (hm, .error "error decoding refresh response")
      | some b =>
        ({ hm with Token := b.accessToken,
                   TokenExpiry := env.now + b.expiresIn * secondNs },
         .ok ())

/-- Go `getAuthToken` from `auth.go` / `heating_manager.go` lines 221-234:
empty token → login; token held and `time.Now().After(TokenExpiry)` →
refresh; otherwise do nothing.  The third component records which network
action was taken. -/
def getAuthToken (hm : HeatingManager) (env : AuthEnv) :
    HeatingManager × Except String Unit × AuthAction :=
  if hm.Token = "" then
    let (hm1, r) := login hm env
    (hm1, r, .didLogin)
  else if timeAfter env.now hm.TokenExpiry then
    let (hm1, r) := refreshToken hm env
    (hm1, r, .didRefresh)
  else
    (hm, .ok (), .noop)

/-- Decoded body of a successful sensor response: the nested
`data.currentWaterTemp` field. -/
structure TempBody where
  currentWaterTemp : ℚ
  deriving Repr, DecidableEq

/-- Go `getTemperature` from `temperature.go` lines 30-65: ensure a valid token
(propagating its error), issue the authenticated GET, and return an error on
request-creation failure, transport failure, non-200 status, or decode
failure; otherwise return the decoded temperature.  The returned manager
carries any token update made by `getAuthToken`. -/
def getTemperature (hm : HeatingManager) (env : AuthEnv)
    (sensorResp : HttpResult TempBody) :
    HeatingManager × Except String ℚ :=
  let (hm1, authRes, _) := getAuthToken hm env
  match authRes with
  | .error e => (hm1, .error e)
  | .ok _ =>
    match sensorResp with
    | .reqError => (hm1, .error "error creating request")
    | .transportError => (hm1, .error "failed to get temperature")
    | .response status body =>
      if status ≠ 200 then
        (hm1, .error "failed to get temperature: status code")
      else
        match body with
        | none => (hm1, .error "failed to unmarshal temperature response")
        | some b => (hm1, .ok b.currentWaterTemp)

/-- Go `checkTemperature` from `temperature.go` lines 13-27: on a read error,
log and return (no state change beyond any token update inside the read);
otherwise set `TemperatureExceeded` to true when the reading is strictly
above the threshold and to false otherwise. -/
def checkTemperature (hm : HeatingManager) (env : AuthEnv)
    (sensorResp : HttpResult TempBody) : HeatingManager :=
  let (hm1, res) := getTemperature hm env sensorResp
  match res with
  | .error _ => hm1
  | .ok temperature =>
    if temperature > hm1.Config.TemperatureThreshold then
      { hm1 with TemperatureExceeded := true }
    else
      { hm1 with TemperatureExceeded := false }

/-- An HTTP request as issued by `makeHeatingControlRequest`:
method, URL, body bytes, and the two headers it sets. -/
structure HttpRequest where
  method : String
  url : String
  body : String
  authorization : String
  contentType : String
  deriving Repr, DecidableEq

/-- Go `fmt.Sprintf(template, arg)` restricted to the one-verb form used by the
program: the first occurrence of the `%s` verb in the template is replaced by
`arg`. -/
def fillFirst : List Char → String → List Char
  | [], _ => []
  | '%' :: 's' :: rest, arg => arg.toList ++ rest
  | c :: rest, arg => c :: fillFirst rest arg

/-- String-level wrapper of `fillFirst`. -/
def sprintf1 (template arg : String) : String :=
  String.mk (fillFirst template.toList arg)

/-- Body produced by `json.Marshal(map{heatPumpChargingMode: mode})`. -/
def chargingModeBody (mode : Nat) : String :=
  "\x7b\"heatPumpChargingMode\":" ++ toString mode ++ "\x7d"

/-- Go `makeHeatingControlRequest` from `heating_control.go` lines 63-95: build
the PUT request (no request emitted if construction fails), send it, and
treat any status other than 200 and 204 as an error.  Returns the result and
the list of requests actually handed to the transport. -/
def makeHeatingControlRequest (hm : HeatingManager) (url requestBody : String)
    (resp : HttpResult Unit) : Except String Unit × List HttpRequest :=
  match resp with
  | .reqError => (.error "error creating request", [])
  | .transportError =>
    (.error "error executing request",
     [⟨"PUT", url, requestBody, "Bearer " ++ hm.Token, "application/json"⟩])
  | .response status _ =>
    if status ≠ 200 ∧ status ≠ 204 then
      (.error "failed to modify heat pump state",
       [⟨"PUT", url, requestBody, "Bearer " ++ hm.Token, "application/json"⟩])
    else
      (.ok (),
       [⟨"PUT", url, requestBody, "Bearer " ++ hm.Token, "application/json"⟩])

/-- Go `turnHeatingOn` from `heating_control.go` lines 26-43: ensure a token
(propagating failure before any request), build the URL from the configured
template and device ID, and PUT mode 1. -/
def turnHeatingOn (hm : HeatingManager) (env : AuthEnv)
    (ctrlResp : HttpResult Unit) :
    HeatingManager × Except String Unit × List HttpRequest :=
  let (hm1, authRes, _) := getAuthToken hm env
  match authRes with
  | .error _ => (hm1, .error "error getting auth token", [])
  | .ok _ =>
    let url := sprintf1 hm1.Config.HeatPumpControlURL hm1.Config.HeatPumpID
    let (r, reqs) := makeHeatingControlRequest hm1 url (chargingModeBody 1) ctrlResp
    (hm1, r, reqs)

/-- Go `turnHeatingOff` from `heating_control.go` lines 47-60: same as
`turnHeatingOn` with mode 2. -/
def turnHeatingOff (hm : HeatingManager) (env : AuthEnv)
    (ctrlResp : HttpResult Unit) :
    HeatingManager × Except String Unit × List HttpRequest :=
  let (hm1, authRes, _) := getAuthToken hm env
  match authRes with
  | .error _ => (hm1, .error "error getting auth token", [])
  | .ok _ =>
    let url := sprintf1 hm1.Config.HeatPumpControlURL hm1.Config.HeatPumpID
    let (r, reqs) := makeHeatingControlRequest hm1 url (chargingModeBody 2) ctrlResp
    (hm1, r, reqs)

/-- The fixed URL hardcoded by the duplicate `turnHeatingOn` in
`heating_manager.go` line 165 (device placeholder literal `xxx`). -/
def legacyControlURL : String :=
  sprintf1 "https://cloud.solar-manager.ch/v1/control/heat-pump/%s" "xxx"

/-- The duplicate `turnHeatingOn` from `heating_manager.go` lines 160-174:
identical to the `heating_control.go` version except that the URL is the
fixed `legacyControlURL`, independent of the configuration. -/
def turnHeatingOnLegacy (hm : HeatingManager) (env : AuthEnv)
    (ctrlResp : HttpResult Unit) :
    HeatingManager × Except String Unit × List HttpRequest :=
  let (hm1, authRes, _) := getAuthToken hm env
  match authRes with
  | .error _ => (hm1, .error "error getting auth token", [])
  | .ok _ =>
    let (r, reqs) := makeHeatingControlRequest hm1 legacyControlURL (chargingModeBody 1) ctrlResp
    (hm1, r, reqs)

/-- The duplicate `turnHeatingOff` from `heating_manager.go` lines 177-191:
fixed URL, mode 2. -/
def turnHeatingOffLegacy (hm : HeatingManager) (env : AuthEnv)
    (ctrlResp : HttpResult Unit) :
    HeatingManager × Except String Unit × List HttpRequest :=
  let (hm1, authRes, _) := getAuthToken hm env
  match authRes with
  | .error _ => (hm1, .error "error getting auth token", [])
  | .ok _ =>
    let (r, reqs) := makeHeatingControlRequest hm1 legacyControlURL (chargingModeBody 2) ctrlResp
    (hm1, r, reqs)

/-- A broken-down `time.Time` as Go formats it: calendar fields, a sub-second
nanosecond component, and the zone offset in minutes east of UTC.  The
RFC3339 layout `2006-01-02T15:04:05Z07:00` renders every field except
`nsec`. -/
structure CivilTime where
  year : Nat
  month : Nat
  day : Nat
  hour : Nat
  minute : Nat
  second : Nat
  nsec : Nat
  offsetMin : Int
  deriving Repr, DecidableEq

/-- Value `t` with its sub-second component dropped (what `time.Parse` of an
RFC3339 string without a fraction reconstructs). -/
def CivilTime.truncSec (t : CivilTime) : CivilTime := { t with nsec := 0 }

/-- ASCII digit character for `n < 10`. -/
def digitChar (n : Nat) : Char := Char.ofNat (48 + n)

/-- Numeric value of an ASCII digit character. -/
def digitVal (c : Char) : Nat := c.toNat - 48

/-- Two-digit zero-padded decimal rendering, as Go pads RFC3339 fields. -/
def pad2 (n : Nat) : List Char := [digitChar (n / 10 % 10), digitChar (n % 10)]

/-- Four-digit zero-padded decimal rendering (the year field). -/
def pad4 (n : Nat) : List Char :=
  [digitChar (n / 1000 % 10), digitChar (n / 100 % 10),
   digitChar (n / 10 % 10), digitChar (n % 10)]

/-- The zone suffix of the RFC3339 layout: `Z` for UTC, otherwise a signed
`hh:mm` offset. -/
def offsetChars (offsetMin : Int) : List Char :=
  if offsetMin = 0 then ['Z']
  else if offsetMin > 0 then
    '+' :: pad2 (offsetMin.toNat / 60) ++ ':' :: pad2 (offsetMin.toNat % 60)
  else
    '-' :: pad2 ((-offsetMin).toNat / 60) ++ ':' :: pad2 ((-offsetMin).toNat % 60)

/-- Go `t.Format(time.RFC3339)`: `yyyy-mm-ddThh:mm:ss` followed by the zone
suffix.  The layout carries no fractional-second verb, so `nsec` is
dropped. -/
def formatRFC3339 (t : CivilTime) : String :=
  String.mk
    (pad4 t.year ++ '-' :: pad2 t.month ++ '-' :: pad2 t.day ++
     'T' :: pad2 t.hour ++ ':' :: pad2 t.minute ++ ':' :: pad2 t.second ++
     offsetChars t.offsetMin)

/-- Parse the zone suffix: `Z`, or sign and `hh:mm`. -/
def parseOffset : List Char → Option Int
  | ['Z'] => some 0
  | ['+', h1, h2, ':', m1, m2] =>
    if h1.isDigit ∧ h2.isDigit ∧ m1.isDigit ∧ m2.isDigit then
      some ((60 * (10 * digitVal h1 + digitVal h2) +
             (10 * digitVal m1 + digitVal m2) : Nat) : Int)
    else none
  | ['-', h1, h2, ':', m1, m2] =>
    if h1.isDigit ∧ h2.isDigit ∧ m1.isDigit ∧ m2.isDigit then
      some (-((60 * (10 * digitVal h1 + digitVal h2) +
               (10 * digitVal m1 + digitVal m2) : Nat) : Int))
    else none
  | _ => none

/-- Go `time.Parse(time.RFC3339, s)` restricted to the fraction-free strings the
program itself writes: fixed positions for the six numeric fields, literal
separators, then the zone suffix.  A parsed time has `nsec = 0`.  (Go
additionally validates calendar-field ranges and accepts an optional
fraction; no claim depends on either.) -/
def parseRFC3339Chars : List Char → Option CivilTime
  | y1 :: y2 :: y3 :: y4 :: '-' :: mo1 :: mo2 :: '-' :: d1 :: d2 ::
    'T' :: h1 :: h2 :: ':' :: mi1 :: mi2 :: ':' :: s1 :: s2 :: rest =>
    if y1.isDigit ∧ y2.isDigit ∧ y3.isDigit ∧ y4.isDigit ∧
       mo1.isDigit ∧ mo2.isDigit ∧ d1.isDigit ∧ d2.isDigit ∧
       h1.isDigit ∧ h2.isDigit ∧ mi1.isDigit ∧ mi2.isDigit ∧
       s1.isDigit ∧ s2.isDigit then
      match parseOffset rest with
      | some off =>
        some ⟨1000 * digitVal y1 + 100 * digitVal y2 + 10 * digitVal y3 + digitVal y4,
              10 * digitVal mo1 + digitVal mo2,
              10 * digitVal d1 + digitVal d2,
              10 * digitVal h1 + digitVal h2,
              10 * digitVal mi1 + digitVal mi2,
              10 * digitVal s1 + digitVal s2,
              0, off⟩
      | none => none
    else none
  | _ => none

/-- String-level RFC3339 parse. -/
def parseRFC3339 (s : String) : Option CivilTime :=
  parseRFC3339Chars s.toList

/-- Go `saveLastCheckTime` from `heating_manager.go` lines 309-315: overwrite
the checkpoint file with `now.Format(time.RFC3339)`.  (A failing
`os.WriteFile` is only logged; the claims quantify over actuation outcomes,
so the write itself is modelled as succeeding.) -/
def saveLastCheckTime (now : CivilTime) : Option String :=
  some (formatRFC3339 now)

/-- Go `readLastCheckTime` from `heating_manager.go` lines 331-343: an absent or
unreadable file is a read error; an unparsable content is a parse error;
otherwise the parsed time is returned. -/
def readLastCheckTime (file : Option String) : Except String CivilTime :=
  match file with
  | none => .error "failed to read last check time"
  | some data =>
    match parseRFC3339 data with
    | none => .error "failed to parse last check time"
    | some t => .ok t

/-- Days from the civil epoch 1970-01-01 to year/month/day
(proleptic Gregorian), the standard `days_from_civil` computation that the
Go calendar arithmetic agrees with. -/
def daysFromCivil (y : Int) (m d : Nat) : Int :=
  let y' := if m ≤ 2 then y - 1 else y
  let era : Int := (if y' ≥ 0 then y' else y' - 399) / 400
  let yoe : Nat := (y' - era * 400).toNat
  let doy : Nat := (153 * (if m > 2 then m - 3 else m + 9) + 2) / 5 + d - 1
  let doe : Nat := yoe * 365 + yoe / 4 - yoe / 100 + doy
  era * 146097 + (doe : Int) - 719468

/-- The instant of a `CivilTime` as nanoseconds since the Unix epoch:
calendar fields are local to the zone offset, so the offset is subtracted. -/
def civilToNs (t : CivilTime) : Int :=
  (daysFromCivil t.year t.month t.day * 86400 +
   (t.hour * 3600 + t.minute * 60 + t.second : Nat) -
   t.offsetMin * 60) * secondNs + t.nsec

/-- Go `nextWeeklyCheckDuration` from `heating_manager.go` lines 318-328: a
failed checkpoint read gives duration 0; otherwise the next check is
`lastCheck + WeeklyCheckInterval hours`, and the result is 0 if `now` is
strictly after it (Go `After`), else `time.Until(nextCheck)`. -/
def nextWeeklyCheckDuration (hm : HeatingManager) (file : Option String)
    (now : Int) : Int :=
  match readLastCheckTime file with
  | .error _ => 0
  | .ok lastCheck =>
    let nextCheck := civilToNs lastCheck + hm.Config.WeeklyCheckInterval * hourNs
    if timeAfter now nextCheck then 0 else nextCheck - now

/-- A delayed action registered with `time.AfterFunc`: turn the heating off
after `delay` nanoseconds. -/
inductive Scheduled where
  | offAfter (delay : Int)
  deriving Repr, DecidableEq

/-- Everything one `weeklyCheck` execution produces: the new manager state,
the new checkpoint file content, the results of the `turnHeatingOn` calls it
made (with the control requests they emitted), and the delayed actions it
scheduled. -/
structure WeeklyResult where
  hm : HeatingManager
  file : Option String
  onCalls : List (Except String Unit × List HttpRequest)
  scheduled : List Scheduled

/-- Go `weeklyCheck` from `heating_manager.go` lines 142-157: when the flag is
clear, call `turnHeatingOn` (logging but swallowing its error) and register
a `turnHeatingOff` with `time.AfterFunc(4*time.Hour, ...)`; in every case
then clear the flag and save the checkpoint.  `nowCivil` is the fire time as
`saveLastCheckTime` formats it; `env.now` is the same instant in
nanoseconds. -/
def weeklyCheck (hm : HeatingManager) (nowCivil : CivilTime) (env : AuthEnv)
    (ctrlResp : HttpResult Unit) : WeeklyResult :=
  let (hm1, onCalls, scheduled) :=
    if !hm.TemperatureExceeded then
      let (h, r, reqs) := turnHeatingOn hm env ctrlResp
      (h, [(r, reqs)], [Scheduled.offAfter (4 * hourNs)])
    else
      (hm, [], [])
  { hm := { hm1 with TemperatureExceeded := false },
    file := saveLastCheckTime nowCivil,
    onCalls := onCalls,
    scheduled := scheduled }

/-- A concrete configuration used by witnesses and counterexamples. -/
def cfgEx : Config :=
  ⟨"https://cloud.solar-manager.ch/v1/data", "sensor1", 55, 50, 5, 168,
   "user", "pw", "dev1", "https://cloud.solar-manager.ch/v1/control/heat-pump/%s"⟩

/-- A concrete manager holding a token that expires at instant 5. -/
def hmEx : HeatingManager := ⟨cfgEx, false, 0, "lastCheck.txt", "tok", 5⟩

/-- State `hmEx` with the `TemperatureExceeded` flag set. -/
def hmExFlag : HeatingManager := ⟨cfgEx, true, 0, "lastCheck.txt", "tok", 5⟩

/-- Environment at instant 3 (token still valid): no network call needed. -/
def envValid : AuthEnv := ⟨3, .transportError, .transportError⟩

/-- Environment at instant 5, exactly the token expiry. -/
def envBoundary : AuthEnv := ⟨5, .transportError, .transportError⟩

/-- Environment at instant 10 (token expired) whose refresh call fails on
the transport. -/
def envRefreshFail : AuthEnv := ⟨10, .transportError, .transportError⟩

/-- Environment at instant 10 (token expired) whose refresh call succeeds
with a token valid for 3600 seconds. -/
def envRefreshOk : AuthEnv := ⟨10, .transportError, .response 200 (some ⟨"tok2", 3600⟩)⟩

/-- A concrete fire time: 2026-10-11T09:05:03.123456789 at UTC-05:30. -/
def tEx : CivilTime := ⟨2026, 10, 11, 9, 5, 3, 123456789, -330⟩

lemma login_error_frame (hm : HeatingManager) (env : AuthEnv) (e : String)
    (h : (login hm env).2 = .error e) : (login hm env).1 = hm := by
  rcases env with ⟨now, lr, rr⟩
  rcases lr with _ | _ | ⟨st, body⟩
  · rfl
  · rfl
  · by_cases hst : st = 200
    · rcases body with _ | b
      · simp [login, hst]
      · simp [login, hst] at h
    · simp [login, hst]

lemma refreshToken_error_frame (hm : HeatingManager) (env : AuthEnv) (e : String)
    (h : (refreshToken hm env).2 = .error e) : (refreshToken hm env).1 = hm := by
  rcases env with ⟨now, lr, rr⟩
  rcases rr with _ | _ | ⟨st, body⟩
  · rfl
  · rfl
  · by_cases hst : st = 200
    · rcases body with _ | b
      · simp [refreshToken, hst]
      · simp [refreshToken, hst] at h
    · simp [refreshToken, hst]

lemma login_config (hm : HeatingManager) (env : AuthEnv) :
    (login hm env).1.Config = hm.Config := by
  rcases env with ⟨now, lr, rr⟩
  rcases lr with _ | _ | ⟨st, body⟩
  · rfl
  · rfl
  · rcases body with _ | b <;> by_cases hst : st = 200 <;> simp [login, hst]

lemma login_flag (hm : HeatingManager) (env : AuthEnv) :
    (login hm env).1.TemperatureExceeded = hm.TemperatureExceeded := by
  rcases env with ⟨now, lr, rr⟩
  rcases lr with _ | _ | ⟨st, body⟩
  · rfl
  · rfl
  · rcases body with _ | b <;> by_cases hst : st = 200 <;> simp [login, hst]

lemma refreshToken_config (hm : HeatingManager) (env : AuthEnv) :
    (refreshToken hm env).1.Config = hm.Config := by
  rcases env with ⟨now, lr, rr⟩
  rcases rr with _ | _ | ⟨st, body⟩
  · rfl
  · rfl
  · rcases body with _ | b <;> by_cases hst : st = 200 <;> simp [refreshToken, hst]

lemma refreshToken_flag (hm : HeatingManager) (env : AuthEnv) :
    (refreshToken hm env).1.TemperatureExceeded = hm.TemperatureExceeded := by
  rcases env with ⟨now, lr, rr⟩
  rcases rr with _ | _ | ⟨st, body⟩
  · rfl
  · rfl
  · rcases body with _ | b <;> by_cases hst : st = 200 <;> simp [refreshToken, hst]

lemma getAuthToken_config (hm : HeatingManager) (env : AuthEnv) :
    (getAuthToken hm env).1.Config = hm.Config := by
  simp only [getAuthToken]
  split
  · exact login_config hm env
  · split
    · exact refreshToken_config hm env
    · rfl

lemma getAuthToken_flag (hm : HeatingManager) (env : AuthEnv) :
    (getAuthToken hm env).1.TemperatureExceeded = hm.TemperatureExceeded := by
  simp only [getAuthToken]
  split
  · exact login_flag hm env
  · split
    · exact refreshToken_flag hm env
    · rfl

/-- C9: whenever `login` or `refreshToken` returns an error (request
construction, transport, non-200 status, or body decode failure), the stored
`Token` and `TokenExpiry` are exactly as they were before the call: the
session is updated only on the all-success path. -/
theorem auth_failure_atomic (hm : HeatingManager) (env : AuthEnv) :
    (∀ e, (login hm env).2 = .error e →
      (login hm env).1.Token = hm.Token ∧
      (login hm env).1.TokenExpiry = hm.TokenExpiry) ∧
    (∀ e, (refreshToken hm env).2 = .error e →
      (refreshToken hm env).1.Token = hm.Token ∧
      (refreshToken hm env).1.TokenExpiry = hm.TokenExpiry) := by
  constructor
  · intro e h
    rw [login_error_frame hm env e h]
    exact ⟨rfl, rfl⟩
  · intro e h
    rw [refreshToken_error_frame hm env e h]
    exact ⟨rfl, rfl⟩

/-- Witness for C9: at the concrete manager `hmEx`, a transport failure of
the login and of the refresh both leave `Token` and `TokenExpiry`
untouched. -/
theorem auth_failure_atomic_witness :
    (login hmEx envRefreshFail).1.Token = hmEx.Token ∧
    (refreshToken hmEx envRefreshFail).1.TokenExpiry = hmEx.TokenExpiry :=
  ⟨((auth_failure_atomic hmEx envRefreshFail).1
      "error making auth request" rfl).1,
   ((auth_failure_atomic hmEx envRefreshFail).2
      "error executing refresh request" rfl).2⟩

/-- Counterexample for C6 as stated: at `hmEx` (token `tok`, expiry 5) and
instant 5 we have a held token with `now >= TokenExpiry`, yet `getAuthToken`
performs no refresh and no network call at all: Go compares with the strict
`time.Now().After(TokenExpiry)`, so at `now = TokenExpiry` it reuses the
token unchanged. -/
theorem getAuthToken_boundary_counterexample :
    hmEx.Token ≠ "" ∧ envBoundary.now ≥ hmEx.TokenExpiry ∧
    getAuthToken hmEx envBoundary = (hmEx, .ok (), .noop) := by
  refine ⟨by decide, by decide, rfl⟩

/-- C6 (amended): `getAuthToken` is a three-way decision with a strict
comparison: empty token → login; held token and `now` strictly after
`TokenExpiry` → refresh; held token and `now <= TokenExpiry` → success with
no network call and no change to the manager. -/
theorem getAuthToken_three_way (hm : HeatingManager) (env : AuthEnv) :
    (hm.Token = "" →
      getAuthToken hm env = ((login hm env).1, (login hm env).2, .didLogin)) ∧
    (hm.Token ≠ "" → env.now > hm.TokenExpiry →
      getAuthToken hm env =
        ((refreshToken hm env).1, (refreshToken hm env).2, .didRefresh)) ∧
    (hm.Token ≠ "" → env.now ≤ hm.TokenExpiry →
      getAuthToken hm env = (hm, .ok (), .noop)) := by
  refine ⟨fun h => ?_, fun h h2 => ?_, fun h h2 => ?_⟩
  · simp [getAuthToken, h]
  · simp [getAuthToken, h, timeAfter, h2]
  · have : ¬ (env.now > hm.TokenExpiry) := not_lt.mpr h2
    simp [getAuthToken, h, timeAfter, this]

/-- Witness for the amended C6: the login branch on an empty token, the
refresh branch at instant 10 > 5, and the no-call branch at instant 3 <= 5,
each at a concrete manager. -/
theorem getAuthToken_three_way_witness :
    getAuthToken ⟨cfgEx, false, 0, "lastCheck.txt", "", 0⟩ envRefreshOk =
      ((login ⟨cfgEx, false, 0, "lastCheck.txt", "", 0⟩ envRefreshOk).1,
       (login ⟨cfgEx, false, 0, "lastCheck.txt", "", 0⟩ envRefreshOk).2,
       .didLogin) ∧
    getAuthToken hmEx envRefreshOk =
      ((refreshToken hmEx envRefreshOk).1,
       (refreshToken hmEx envRefreshOk).2, .didRefresh) ∧
    getAuthToken hmEx envValid = (hmEx, .ok (), .noop) :=
  ⟨(getAuthToken_three_way _ envRefreshOk).1 rfl,
   (getAuthToken_three_way hmEx envRefreshOk).2.1 (by decide) (by decide),
   (getAuthToken_three_way hmEx envValid).2.2 (by decide) (by decide)⟩

lemma getTemperature_fst (hm : HeatingManager) (env : AuthEnv)
    (resp : HttpResult TempBody) :
    (getTemperature hm env resp).1 = (getAuthToken hm env).1 := by
  rcases hga : getAuthToken hm env with ⟨hm1, res, act⟩
  rcases res with e | u
  · simp [getTemperature, hga]
  · rcases resp with _ | _ | ⟨st, body⟩
    · simp [getTemperature, hga]
    · simp [getTemperature, hga]
    · rcases body with _ | b <;> by_cases hst : st = 200 <;>
        simp [getTemperature, hga, hst]

lemma checkTemperature_ok (hm : HeatingManager) (env : AuthEnv)
    (resp : HttpResult TempBody) (t : ℚ)
    (h : (getTemperature hm env resp).2 = .ok t) :
    (checkTemperature hm env resp).TemperatureExceeded =
      decide (t > hm.Config.TemperatureThreshold) := by
  have hc : (getTemperature hm env resp).1.Config = hm.Config := by
    rw [getTemperature_fst]; exact getAuthToken_config hm env
  rcases hgt : getTemperature hm env resp with ⟨hm1, res⟩
  rw [hgt] at h hc
  simp only at h hc
  subst h
  simp only [checkTemperature, hgt, hc]
  by_cases ht : hm.Config.TemperatureThreshold < t
  · simp [ht]
  · simp [ht]

/-- C5: for every successfully obtained reading `t`, `checkTemperature` sets
the flag to exactly `t > threshold`; and any two runs that obtain equal
readings against the same threshold leave the flag equal (idempotence of
repeated equal readings). -/
theorem checkTemperature_threshold (hm : HeatingManager) (env : AuthEnv)
    (resp : HttpResult TempBody) (t : ℚ)
    (h : (getTemperature hm env resp).2 = .ok t) :
    ((checkTemperature hm env resp).TemperatureExceeded =
       decide (t > hm.Config.TemperatureThreshold)) ∧
    (∀ hm2 env2 resp2, (getTemperature hm2 env2 resp2).2 = .ok t →
       hm2.Config.TemperatureThreshold = hm.Config.TemperatureThreshold →
       (checkTemperature hm2 env2 resp2).TemperatureExceeded =
         (checkTemperature hm env resp).TemperatureExceeded) := by
  refine ⟨checkTemperature_ok hm env resp t h, fun hm2 env2 resp2 h2 hth => ?_⟩
  rw [checkTemperature_ok hm env resp t h, checkTemperature_ok hm2 env2 resp2 t h2, hth]

/-- Witness for C5: at `hmEx` (threshold 55), a successful reading of 60
sets the flag, and a second run from the flag-set state `hmExFlag` with the
same reading leaves the flag equal. -/
theorem checkTemperature_threshold_witness :
    ((checkTemperature hmEx envValid (.response 200 (some ⟨60⟩))).TemperatureExceeded =
       decide ((60 : ℚ) > hmEx.Config.TemperatureThreshold)) ∧
    ((checkTemperature hmExFlag envValid (.response 200 (some ⟨60⟩))).TemperatureExceeded =
       (checkTemperature hmEx envValid (.response 200 (some ⟨60⟩))).TemperatureExceeded) :=
  ⟨(checkTemperature_threshold hmEx envValid (.response 200 (some ⟨60⟩)) 60 rfl).1,
   (checkTemperature_threshold hmEx envValid (.response 200 (some ⟨60⟩)) 60 rfl).2
     hmExFlag envValid (.response 200 (some ⟨60⟩)) rfl rfl⟩

/-- C8: on every monitoring tick whose temperature read fails (request
construction, transport, non-200 status, or decode failure — any error of
`getTemperature`), `checkTemperature` leaves `TemperatureExceeded` exactly
as it was: the error path returns without touching the flag and substitutes
no cached reading. -/
theorem checkTemperature_error_keeps_flag (hm : HeatingManager) (env : AuthEnv)
    (resp : HttpResult TempBody) (e : String)
    (h : (getTemperature hm env resp).2 = .error e) :
    (checkTemperature hm env resp).TemperatureExceeded =
      hm.TemperatureExceeded := by
  have hf : (getTemperature hm env resp).1.TemperatureExceeded =
      hm.TemperatureExceeded := by
    rw [getTemperature_fst]; exact getAuthToken_flag hm env
  rcases hgt : getTemperature hm env resp with ⟨hm1, res⟩
  rw [hgt] at h hf
  simp only at h hf
  subst h
  simp only [checkTemperature, hgt]
  exact hf

/-- Witness for C8: a 500 response from the sensor at the flag-set state
`hmExFlag` leaves the flag true. -/
theorem checkTemperature_error_keeps_flag_witness :
    (checkTemperature hmExFlag envValid (.response 500 none)).TemperatureExceeded =
      hmExFlag.TemperatureExceeded :=
  checkTemperature_error_keeps_flag hmExFlag envValid (.response 500 none)
    "failed to get temperature: status code" rfl

/-- C1: after one execution of `weeklyCheck` — for every prior state and
every actuation outcome (success, actuation error, or token error, all
ranged over by `env` and `ctrlResp`) — the `TemperatureExceeded` flag is
false and the checkpoint file holds the RFC3339 rendering of the fire time:
the clear and the save sit after the actuation branch and run
unconditionally. -/
theorem weeklyCheck_clears_flag_and_saves (hm : HeatingManager)
    (nowCivil : CivilTime) (env : AuthEnv) (ctrlResp : HttpResult Unit) :
    (weeklyCheck hm nowCivil env ctrlResp).hm.TemperatureExceeded = false ∧
    (weeklyCheck hm nowCivil env ctrlResp).file =
      some (formatRFC3339 nowCivil) := by
  cases hf : hm.TemperatureExceeded <;>
    simp [weeklyCheck, saveLastCheckTime, hf]

/-- C2: when the flag is set at fire time, `weeklyCheck` performs no
`turnHeatingOn` call and schedules no delayed off; its only effects are
clearing the flag and saving the checkpoint (the rest of the manager state
is untouched). -/
theorem weeklyCheck_flag_true_skips (hm : HeatingManager)
    (nowCivil : CivilTime) (env : AuthEnv) (ctrlResp : HttpResult Unit)
    (h : hm.TemperatureExceeded = true) :
    (weeklyCheck hm nowCivil env ctrlResp).onCalls = [] ∧
    (weeklyCheck hm nowCivil env ctrlResp).scheduled = [] ∧
    (weeklyCheck hm nowCivil env ctrlResp).hm =
      { hm with TemperatureExceeded := false } ∧
    (weeklyCheck hm nowCivil env ctrlResp).file =
      some (formatRFC3339 nowCivil) := by
  simp [weeklyCheck, saveLastCheckTime, h]

/-- Witness for C2: at the flag-set state `hmExFlag` and a control endpoint
that would answer 200, the fire makes no on call and schedules nothing. -/
theorem weeklyCheck_flag_true_skips_witness :
    (weeklyCheck hmExFlag tEx envValid (.response 200 (some ()))).onCalls = [] ∧
    (weeklyCheck hmExFlag tEx envValid (.response 200 (some ()))).scheduled = [] ∧
    (weeklyCheck hmExFlag tEx envValid (.response 200 (some ()))).hm =
      { hmExFlag with TemperatureExceeded := false } ∧
    (weeklyCheck hmExFlag tEx envValid (.response 200 (some ()))).file =
      some (formatRFC3339 tEx) :=
  weeklyCheck_flag_true_skips hmExFlag tEx envValid (.response 200 (some ())) rfl

/-- C3: when the flag is clear at fire time, `weeklyCheck` makes exactly one
`turnHeatingOn` call (whatever its outcome — the failure path only logs) and
schedules exactly one delayed off, after exactly 4 hours. -/
theorem weeklyCheck_flag_false_fires (hm : HeatingManager)
    (nowCivil : CivilTime) (env : AuthEnv) (ctrlResp : HttpResult Unit)
    (h : hm.TemperatureExceeded = false) :
    (weeklyCheck hm nowCivil env ctrlResp).onCalls =
      [((turnHeatingOn hm env ctrlResp).2.1,
        (turnHeatingOn hm env ctrlResp).2.2)] ∧
    (weeklyCheck hm nowCivil env ctrlResp).scheduled =
      [Scheduled.offAfter (4 * hourNs)] := by
  rcases hto : turnHeatingOn hm env ctrlResp with ⟨hm1, r, reqs⟩
  simp [weeklyCheck, h, hto]

/-- Witness for C3: at `hmEx` (flag clear) with a transport failure of the
on command, the fire still records exactly the one failed on call and still
schedules the 4-hour delayed off. -/
theorem weeklyCheck_flag_false_fires_witness :
    (weeklyCheck hmEx tEx envValid .transportError).onCalls =
      [((turnHeatingOn hmEx envValid .transportError).2.1,
        (turnHeatingOn hmEx envValid .transportError).2.2)] ∧
    (weeklyCheck hmEx tEx envValid .transportError).scheduled =
      [Scheduled.offAfter (4 * hourNs)] :=
  weeklyCheck_flag_false_fires hmEx tEx envValid .transportError rfl

/-- C4: `nextWeeklyCheckDuration` is a pure function of the current instant,
the checkpoint content, and `WeeklyCheckInterval`: a failed read or parse of
the checkpoint gives 0; otherwise, with
`nextDue = lastCheck + WeeklyCheckInterval hours`, the result is 0 when
`now >= nextDue` and `nextDue - now` when `now < nextDue`. -/
theorem nextWeeklyCheckDuration_formula (hm : HeatingManager)
    (file : Option String) (now : Int) :
    (∀ e, readLastCheckTime file = .error e →
      nextWeeklyCheckDuration hm file now = 0) ∧
    (∀ lastCheck, readLastCheckTime file = .ok lastCheck →
      (now ≥ civilToNs lastCheck + hm.Config.WeeklyCheckInterval * hourNs →
        nextWeeklyCheckDuration hm file now = 0) ∧
      (now < civilToNs lastCheck + hm.Config.WeeklyCheckInterval * hourNs →
        nextWeeklyCheckDuration hm file now =
          civilToNs lastCheck + hm.Config.WeeklyCheckInterval * hourNs - now)) := by
  constructor
  · intro e he
    simp [nextWeeklyCheckDuration, he]
  · intro lastCheck hl
    constructor
    · intro hge
      rcases lt_or_eq_of_le hge with hgt | heq
      · simp [nextWeeklyCheckDuration, hl, timeAfter, hgt]
      · simp [nextWeeklyCheckDuration, hl, timeAfter, ← heq]
    · intro hlt
      have : ¬ (civilToNs lastCheck + hm.Config.WeeklyCheckInterval * hourNs < now) :=
        not_lt.mpr (le_of_lt hlt)
      simp [nextWeeklyCheckDuration, hl, timeAfter, this]

/-- Witness for C4: with the checkpoint written at `tEx` and a 168-hour
interval, an unparsable checkpoint gives 0, an instant past the due time
gives 0, and an instant 68 hours before the due time gives 68 hours. -/
theorem nextWeeklyCheckDuration_formula_witness :
    nextWeeklyCheckDuration hmEx (some "garbage") 0 = 0 ∧
    nextWeeklyCheckDuration hmEx (saveLastCheckTime tEx)
      (civilToNs tEx.truncSec + 200 * hourNs) = 0 ∧
    nextWeeklyCheckDuration hmEx (saveLastCheckTime tEx)
      (civilToNs tEx.truncSec + 100 * hourNs) = 68 * hourNs := by
  have hread : readLastCheckTime (saveLastCheckTime tEx) = .ok tEx.truncSec := by
    rfl
  have h168 : hmEx.Config.WeeklyCheckInterval = 168 := rfl
  have hpos : (0 : Int) < hourNs := by norm_num [hourNs, secondNs]
  refine ⟨(nextWeeklyCheckDuration_formula hmEx (some "garbage") 0).1
            "failed to parse last check time" rfl, ?_, ?_⟩
  · exact ((nextWeeklyCheckDuration_formula hmEx (saveLastCheckTime tEx)
        (civilToNs tEx.truncSec + 200 * hourNs)).2 tEx.truncSec hread).1
      (by rw [h168]; linarith)
  · have := ((nextWeeklyCheckDuration_formula hmEx (saveLastCheckTime tEx)
        (civilToNs tEx.truncSec + 100 * hourNs)).2 tEx.truncSec hread).2
      (by rw [h168]; linarith)
    rw [this, h168]; ring

lemma control_reqs_spec (hm : HeatingManager) (url rbody : String)
    (resp : HttpResult Unit) :
    (∀ req ∈ (makeHeatingControlRequest hm url rbody resp).2,
      req = ⟨"PUT", url, rbody, "Bearer " ++ hm.Token, "application/json"⟩) ∧
    (∀ st b, resp = .response st b →
      ((makeHeatingControlRequest hm url rbody resp).1 = .ok () ↔
        (st = 200 ∨ st = 204))) := by
  constructor
  · intro req hreq
    rcases resp with _ | _ | ⟨st, b⟩
    · simp [makeHeatingControlRequest] at hreq
    · simp [makeHeatingControlRequest] at hreq
      exact hreq
    · by_cases h24 : st ≠ 200 ∧ st ≠ 204 <;>
        simp [makeHeatingControlRequest, h24] at hreq <;> exact hreq
  · rintro st b rfl
    by_cases h2 : st = 200
    · simp [makeHeatingControlRequest, h2]
    · by_cases h4 : st = 204 <;> simp [makeHeatingControlRequest, h2, h4]

/-- Counterexample for C7 as stated: the duplicate `turnHeatingOn` of
`heating_manager.go` (lines 160-174) PUTs to the fixed URL
`https://cloud.solar-manager.ch/v1/control/heat-pump/xxx`, which differs
from the configured control template filled with the configured device ID
(`.../heat-pump/dev1` at the concrete configuration `cfgEx`). -/
theorem legacy_control_url_counterexample :
    (turnHeatingOnLegacy hmEx envValid (.response 200 (some ()))).2.2 =
      [⟨"PUT", legacyControlURL, chargingModeBody 1, "Bearer tok",
        "application/json"⟩] ∧
    legacyControlURL ≠
      sprintf1 hmEx.Config.HeatPumpControlURL hmEx.Config.HeatPumpID :=
  ⟨rfl, by decide⟩

/-- C7 (amended): every heating control command sends a PUT whose body is
`{"heatPumpChargingMode":1}` for on and `:2` for off with content type
`application/json`, and succeeds iff the response status is 200 or 204; the
URL is the configured template filled with the configured device ID for the
`heating_control.go` versions, while the duplicate `heating_manager.go`
versions use the fixed `legacyControlURL`. -/
theorem heating_control_request_shape (hm : HeatingManager) (env : AuthEnv)
    (ctrl : HttpResult Unit) :
    (∀ req ∈ (turnHeatingOn hm env ctrl).2.2,
      req.method = "PUT" ∧
      req.url = sprintf1 hm.Config.HeatPumpControlURL hm.Config.HeatPumpID ∧
      req.body = chargingModeBody 1 ∧ req.contentType = "application/json") ∧
    (∀ req ∈ (turnHeatingOff hm env ctrl).2.2,
      req.method = "PUT" ∧
      req.url = sprintf1 hm.Config.HeatPumpControlURL hm.Config.HeatPumpID ∧
      req.body = chargingModeBody 2 ∧ req.contentType = "application/json") ∧
    (∀ req ∈ (turnHeatingOnLegacy hm env ctrl).2.2,
      req.method = "PUT" ∧ req.url = legacyControlURL ∧
      req.body = chargingModeBody 1 ∧ req.contentType = "application/json") ∧
    (∀ req ∈ (turnHeatingOffLegacy hm env ctrl).2.2,
      req.method = "PUT" ∧ req.url = legacyControlURL ∧
      req.body = chargingModeBody 2 ∧ req.contentType = "application/json") ∧
    (∀ st b, ctrl = .response st b → (getAuthToken hm env).2.1 = .ok () →
      (((turnHeatingOn hm env ctrl).2.1 = .ok () ↔ (st = 200 ∨ st = 204)) ∧
       ((turnHeatingOff hm env ctrl).2.1 = .ok () ↔ (st = 200 ∨ st = 204)) ∧
       ((turnHeatingOnLegacy hm env ctrl).2.1 = .ok () ↔ (st = 200 ∨ st = 204)) ∧
       ((turnHeatingOffLegacy hm env ctrl).2.1 = .ok () ↔ (st = 200 ∨ st = 204)))) := by
  rcases hga : getAuthToken hm env with ⟨hm1, res, act⟩
  have hc : hm1.Config = hm.Config := by
    have := getAuthToken_config hm env
    rw [hga] at this
    exact this
  rcases res with e | u
  · refine ⟨?_, ?_, ?_, ?_, ?_⟩
    · intro req hreq
      simp [turnHeatingOn, hga] at hreq
    · intro req hreq
      simp [turnHeatingOff, hga] at hreq
    · intro req hreq
      simp [turnHeatingOnLegacy, hga] at hreq
    · intro req hreq
      simp [turnHeatingOffLegacy, hga] at hreq
    · rintro st b rfl hok
      simp at hok
  · have e1 : (turnHeatingOn hm env ctrl).2 =
        makeHeatingControlRequest hm1
          (sprintf1 hm1.Config.HeatPumpControlURL hm1.Config.HeatPumpID)
          (chargingModeBody 1) ctrl := by
      simp [turnHeatingOn, hga]
    have e2 : (turnHeatingOff hm env ctrl).2 =
        makeHeatingControlRequest hm1
          (sprintf1 hm1.Config.HeatPumpControlURL hm1.Config.HeatPumpID)
          (chargingModeBody 2) ctrl := by
      simp [turnHeatingOff, hga]
    have e3 : (turnHeatingOnLegacy hm env ctrl).2 =
        makeHeatingControlRequest hm1 legacyControlURL (chargingModeBody 1) ctrl := by
      simp [turnHeatingOnLegacy, hga]
    have e4 : (turnHeatingOffLegacy hm env ctrl).2 =
        makeHeatingControlRequest hm1 legacyControlURL (chargingModeBody 2) ctrl := by
      simp [turnHeatingOffLegacy, hga]
    refine ⟨?_, ?_, ?_, ?_, ?_⟩
    · intro req hreq
      rw [e1] at hreq
      have := (control_reqs_spec hm1 _ _ ctrl).1 req hreq
      subst this
      exact ⟨rfl, by rw [hc], rfl, rfl⟩
    · intro req hreq
      rw [e2] at hreq
      have := (control_reqs_spec hm1 _ _ ctrl).1 req hreq
      subst this
      exact ⟨rfl, by rw [hc], rfl, rfl⟩
    · intro req hreq
      rw [e3] at hreq
      have := (control_reqs_spec hm1 _ _ ctrl).1 req hreq
      subst this
      exact ⟨rfl, rfl, rfl, rfl⟩
    · intro req hreq
      rw [e4] at hreq
      have := (control_reqs_spec hm1 _ _ ctrl).1 req hreq
      subst this
      exact ⟨rfl, rfl, rfl, rfl⟩
    · rintro st b rfl hok
      refine ⟨?_, ?_, ?_, ?_⟩ <;>
        [rw [e1]; rw [e2]; rw [e3]; rw [e4]] <;>
        exact (control_reqs_spec hm1 _ _ _).2 st b rfl

/-- Witness for the amended C7: at `hmEx` with a 204 response, the emitted
on request targets the filled template URL, and the call succeeds; with a
500 response the call fails. -/
theorem heating_control_request_shape_witness :
    ((⟨"PUT", sprintf1 cfgEx.HeatPumpControlURL cfgEx.HeatPumpID,
       chargingModeBody 1, "Bearer tok", "application/json"⟩ : HttpRequest).url =
      sprintf1 hmEx.Config.HeatPumpControlURL hmEx.Config.HeatPumpID) ∧
    ((turnHeatingOn hmEx envValid (.response 204 (some ()))).2.1 = .ok () ↔
      ((204 : Nat) = 200 ∨ (204 : Nat) = 204)) ∧
    ((turnHeatingOff hmEx envValid (.response 500 none)).2.1 = .ok () ↔
      ((500 : Nat) = 200 ∨ (500 : Nat) = 204)) :=
  ⟨((heating_control_request_shape hmEx envValid (.response 204 (some ()))).1 _
      (by decide)).2.1,
   ((heating_control_request_shape hmEx envValid
      (.response 204 (some ()))).2.2.2.2 204 (some ()) rfl rfl).1,
   ((heating_control_request_shape hmEx envValid
      (.response 500 none)).2.2.2.2 500 none rfl rfl).2.1⟩

lemma toList_mk (l : List Char) : (String.mk l).toList = l := rfl

lemma isDigit_digitChar (n : Nat) (h : n < 10) : (digitChar n).isDigit = true := by
  interval_cases n <;> decide

lemma digitVal_digitChar (n : Nat) (h : n < 10) : digitVal (digitChar n) = n := by
  interval_cases n <;> decide

lemma isDigit_digitChar_mod (n : Nat) : (digitChar (n % 10)).isDigit = true :=
  isDigit_digitChar _ (Nat.mod_lt _ (by norm_num))

lemma digitVal_digitChar_mod (n : Nat) : digitVal (digitChar (n % 10)) = n % 10 :=
  digitVal_digitChar _ (Nat.mod_lt _ (by norm_num))

lemma parseOffset_offsetChars (off : Int) (hlo : -6000 < off) (hhi : off < 6000) :
    parseOffset (offsetChars off) = some off := by
  rcases lt_trichotomy off 0 with hneg | rfl | hpos
  · have hne0 : ¬ (off = 0) := by omega
    have hnp : ¬ (off > 0) := by omega
    simp only [offsetChars, if_neg hne0, if_neg hnp, pad2,
               List.cons_append, List.nil_append, parseOffset,
               isDigit_digitChar_mod, digitVal_digitChar_mod,
               and_self, if_true, Option.some.injEq]
    omega
  · rfl
  · have hne0 : ¬ (off = 0) := by omega
    simp only [offsetChars, if_neg hne0, if_pos hpos, pad2,
               List.cons_append, List.nil_append, parseOffset,
               isDigit_digitChar_mod, digitVal_digitChar_mod,
               and_self, if_true, Option.some.injEq]
    omega

/-- C10: for every time `t` whose fields are in the ranges the RFC3339
layout can carry, reading the checkpoint right after saving it at `t`
succeeds and returns `t` with its sub-second component dropped: the RFC3339
format stores whole seconds only, so the round trip is the identity exactly
up to truncation to whole seconds (and nothing coarser). -/
theorem checkpoint_roundtrip (t : CivilTime)
    (hy : t.year < 10000) (hmo : t.month < 100) (hd : t.day < 100)
    (hh : t.hour < 100) (hmi : t.minute < 100) (hs : t.second < 100)
    (ho1 : -6000 < t.offsetMin) (ho2 : t.offsetMin < 6000) :
    readLastCheckTime (saveLastCheckTime t) = .ok t.truncSec := by
  rcases t with ⟨y, mo, d, hr, mi, sec, ns, off⟩
  simp only [readLastCheckTime, saveLastCheckTime, parseRFC3339, formatRFC3339,
             toList_mk, pad4, pad2, List.cons_append, List.nil_append]
  simp only [parseRFC3339Chars, isDigit_digitChar_mod, digitVal_digitChar_mod,
             and_self, if_true, parseOffset_offsetChars off ho1 ho2,
             CivilTime.truncSec]
  simp only [Except.ok.injEq, CivilTime.mk.injEq]
  dsimp only at hy hmo hd hh hmi hs ho1 ho2
  refine ⟨?_, ?_, ?_, ?_, ?_, ?_, by trivial, by trivial⟩ <;> omega

/-- Witness for C10: saving at the concrete instant `tEx`
(2026-10-11T09:05:03.123456789 at UTC-05:30) and reading back returns `tEx`
with `nsec` zeroed. -/
theorem checkpoint_roundtrip_witness :
    readLastCheckTime (saveLastCheckTime tEx) = .ok tEx.truncSec :=
  checkpoint_roundtrip tEx (by decide) (by decide) (by decide) (by decide)
    (by decide) (by decide) (by decide) (by decide)
